import Mathlib

-- Verification development for the MQTT media-download pipeline
-- (src/downloadMqtt.sh, the canonical variant at the top of the file).
-- The shell script is shallowly embedded: each per-message computation is a
-- Lean function over an explicit message record and an oracle that supplies
-- the results of the external tools (format listing, download exit code,
-- directory listing, probed height).

namespace DownloadMqtt

-- Model of the bash lowering ${s,,} for ASCII strings.
def asciiLowerChar (c : Char) : Char :=
  if 65 ≤ c.toNat && c.toNat ≤ 90 then Char.ofNat (c.toNat + 32) else c

def asciiLower (s : String) : String :=
  String.mk (s.data.map asciiLowerChar)

-- Substring matching, used to model grep with a literal pattern.
def startsWithL : List Char → List Char → Bool
  | [], _ => true
  | _ :: _, [] => false
  | a :: as, b :: bs => a == b && startsWithL as bs

def hasSubL (p : List Char) : List Char → Bool
  | [] => startsWithL p []
  | b :: bs => startsWithL p (b :: bs) || hasSubL p bs

def containsStr (pat s : String) : Bool := hasSubL pat.data s.data

-- Model of awk field extraction of the first field of a line.
def firstField (s : String) : String :=
  String.mk ((s.data.dropWhile (fun c => c == ' ' || c == '\t')).takeWhile
    (fun c => !(c == ' ' || c == '\t')))

-- One raw queue message.  A field that is absent in the JSON object is
-- represented by none; jq -r prints the literal text null for it.
structure Msg where
  LNG : Option String
  TITLE : Option String
  ACT : Option String
  RES : Option String
  MP4URL : Option String
  TYPE : Option String
  RETRY : Option Nat
deriving DecidableEq

-- Model of jq -r field extraction: an absent (or null) field prints as the
-- literal string null, a present string field prints as itself.
def jqr : Option String → String
  | none => "null"
  | some s => s

-- Model of jq -r with the // 0 default used for the RETRY field (line 55).
def retryOf (m : Msg) : Nat := m.RETRY.getD 0

-- Validation at lines 57 - 63: the four extracted fields are tested with -z.
def validMsg (m : Msg) : Bool :=
  !(jqr m.LNG == "") && !(jqr m.ACT == "") && !(jqr m.RES == "") && !(jqr m.MP4URL == "")

-- The single topic used both for the subscription (line 27) and for every
-- republish of a failed message (line 116).
def TOPIC : String := "vsong"

-- The per-invocation working directory (lines 15 - 16), keyed by the
-- invocation start timestamp.
def tmpdir (ts : String) : String := "/tmp/songs/" ++ ts

structure Config where
  songRoot : String
  movieRoot : String
  ts : String
deriving DecidableEq

-- One line of the yt-dlp -F format listing.
structure FormatLine where
  text : String
deriving DecidableEq

-- One entry of the working-directory listing, with its modification time.
structure FileEnt where
  name : String
  mtime : Nat
deriving DecidableEq

-- Results of the external tools for one message, supplied as an oracle:
-- the format listing, the downloader exit status, the working-directory
-- listing right after a zero-exit download, and the probed height text
-- (empty when probing failed or printed no height line).
structure Oracle where
  formats : List FormatLine
  dlExit : Nat
  files : List FileEnt
  probedHeight : String
deriving DecidableEq

-- grep PAT | tail -1 | awk field-1, the code shape of both format lookups
-- (lines 76 and 78).
def grepLastId (pat : String) (ls : List FormatLine) : String :=
  match (ls.filter (fun l => containsStr pat l.text)).getLast? with
  | none => ""
  | some l => firstField l.text

-- Line 78: the video format id is the first field of the last listing line
-- that contains the literal requested-resolution string.
def fvcodeOf (res : String) (ls : List FormatLine) : String := grepLastId res ls

-- Line 76: the audio format id is the first field of the last listing line
-- that contains the word audio.
def facodeOf (ls : List FormatLine) : String := grepLastId "audio" ls

-- FVSTORE_MAP at line 24: exact-key lookup from height text to bucket.
def fvstoreMap (h : String) : String :=
  if h == "2160" then "4k"
  else if h == "1440" then "2k"
  else if h == "1080" then "1080p"
  else if h == "720" then "720p"
  else ""

-- Decimal parsing over the character list, used instead of the opaque
-- built-in string-to-number conversion so that everything evaluates.
def natOfDigits : Nat → List Char → Option Nat
  | acc, [] => some acc
  | acc, c :: cs =>
    if 48 ≤ c.toNat && c.toNat ≤ 57 then natOfDigits (acc * 10 + (c.toNat - 48)) cs
    else none

def strToNat (s : String) : Option Nat :=
  match s.data with
  | [] => none
  | _ => natOfDigits 0 s.data

-- Model of the bash numeric test [ s -le n ]: false (test error) when s is
-- not a numeral.
def bashLe (s : String) (n : Nat) : Bool :=
  match strToNat s with
  | some v => decide (v ≤ n)
  | none => false

-- Lines 141 - 152: threshold bucketing of the originally requested RES,
-- taken only when the exact-height lookup came back empty.
def resFallback (rs : String) : String :=
  if bashLe rs 720 then "720p"
  else if bashLe rs 1080 then "1080p"
  else if bashLe rs 1440 then "2k"
  else if bashLe rs 2160 then "4k"
  else "4k"

-- Lines 137 - 153: storage resolution from the probed height text and the
-- requested RES text.
def vres (height rs : String) : String :=
  if fvstoreMap height == "" then resFallback rs else fvstoreMap height

-- The five patterns of the case statement at lines 156 - 160.
def southLngs : List String := ["telugu", "kannada", "tamil", "malayalam", "malyalam"]

-- Lines 155 - 160: only the south-language patterns are rewritten; every
-- other input is left exactly as received.
def normalizeLng (lng : String) : String :=
  if asciiLower lng ∈ southLngs then "South" else lng

-- Lines 161 - 171: final TARGET_DIR.  In the movie branch the code first
-- overwrites LNG with bollywood and only then compares LNG against english,
-- exactly as written in the script.
def targetDir (cfg : Config) (m : Msg) (VRES : String) : String :=
  let LNG1 := normalizeLng (jqr m.LNG)
  let songPath := cfg.songRoot ++ "/" ++ LNG1 ++ "/" ++ VRES ++ "/" ++ jqr m.ACT
  if asciiLower (jqr m.TYPE) == "movie" then
    let l := "bollywood"
    let l2 := if l == "english" then "hollywood" else l
    cfg.movieRoot ++ "/" ++ l2
  else songPath

-- ls -t | head -1 (line 130): the listing entry with the greatest
-- modification time.
def newer (a b : FileEnt) : FileEnt := if a.mtime < b.mtime then b else a

def pickNewest : List FileEnt → Option FileEnt
  | [] => none
  | f :: fs => some (fs.foldl newer f)

def pickedName (fs : List FileEnt) : String :=
  ((pickNewest fs).map FileEnt.name).getD ""

-- Line 115: jq sets only the RETRY key of the republished message.
def requeueMsg (m : Msg) : Msg := { m with RETRY := some (retryOf m + 1) }

inductive Outcome where
  | success
  | requeued
  | failed
deriving DecidableEq

-- Everything one loop iteration (lines 46 - 192) does with one message:
-- its terminal outcome, the message republished to the broker (if any), the
-- message appended to FAILED_MSG_LOG (if any), and the source and
-- destination of the file move (if any).
structure StepResult where
  outcome : Outcome
  published : Option (String × Msg)
  deadLetter : Option Msg
  movedSrc : Option String
  dest : Option String
deriving DecidableEq

def processMsg (cfg : Config) (m : Msg) (o : Oracle) : StepResult :=
  if validMsg m = false then
    { outcome := Outcome.failed, published := none, deadLetter := none,
      movedSrc := none, dest := none }
  else if fvcodeOf (jqr m.RES) o.formats = "" ∨ facodeOf o.formats = "" then
    { outcome := Outcome.failed, published := none, deadLetter := some m,
      movedSrc := none, dest := none }
  else if o.dlExit ≠ 0 then
    if retryOf m + 1 < 5 then
      { outcome := Outcome.requeued, published := some (TOPIC, requeueMsg m),
        deadLetter := none, movedSrc := none, dest := none }
    else
      { outcome := Outcome.failed, published := none, deadLetter := some m,
        movedSrc := none, dest := none }
  else
    { outcome := Outcome.success, published := none, deadLetter := none,
      movedSrc := some (tmpdir cfg.ts ++ "/" ++ pickedName o.files),
      dest := some (targetDir cfg m (vres o.probedHeight (jqr m.RES)) ++ "/" ++
        pickedName o.files) }

-- Batch counters (lines 41 - 43) and the message loop (lines 46 - 192).
structure Counters where
  count : Nat
  retry_count : Nat
  failed_count : Nat
deriving DecidableEq

def bump (c : Counters) : Outcome → Counters
  | Outcome.success => { c with count := c.count + 1 }
  | Outcome.requeued => { c with retry_count := c.retry_count + 1 }
  | Outcome.failed => { c with failed_count := c.failed_count + 1 }

-- A batch item is none for a blank input line (skipped at line 47), or a
-- parsed message together with the oracle for its external calls.
def processBatch (cfg : Config) : List (Option (Msg × Oracle)) → Counters → Counters
  | [], c => c
  | none :: rest, c => processBatch cfg rest c
  | some (m, o) :: rest, c => processBatch cfg rest (bump c (processMsg cfg m o).outcome)

-- End-of-batch cleanup (line 199): rm -rf of the working directory removes
-- every path below it.  The file system is modelled as a list of paths.
def isUnder (dir p : String) : Bool := startsWithL (dir ++ "/").data p.data

def cleanup (ts : String) (fs : List String) : List String :=
  fs.filter (fun q => !(isUnder (tmpdir ts) q))

-- Definitions following the wording of the specification, kept apart from
-- the code embedding for refinement comparison.

def minOfList : List Nat → Option Nat
  | [] => none
  | x :: xs => some (xs.foldl Nat.min x)

def maxOfList : List Nat → Option Nat
  | [] => none
  | x :: xs => some (xs.foldl Nat.max x)

-- Follows the wording of the specification resolver rule: exact height,
-- else smallest strictly higher height, else the maximum height.
def specVideoHeight (R : Nat) (H : List Nat) : Option Nat :=
  if R ∈ H then some R
  else
    match H.filter (fun h => R < h) with
    | [] => maxOfList H
    | hs => minOfList hs

-- Follows the wording of claim C6: pure threshold bucketing of a height.
def specHeightBucket (h : Nat) : String :=
  if h ≤ 720 then "720p"
  else if h ≤ 1080 then "1080p"
  else if h ≤ 1440 then "2k"
  else "4k"

-- Concrete example data used by the witnesses and counterexamples.

def exCfg : Config := ⟨"/songs", "/movies", "t1"⟩

def exFormats : List FormatLine := [⟨"399 mp4 1920x1080"⟩, ⟨"140 m4a audio only"⟩]

def exOracleFail : Oracle := ⟨exFormats, 1, [], ""⟩

def exOracleEmptyFormats : Oracle := ⟨[], 0, [], ""⟩

def exOracleNoMatch : Oracle := ⟨[⟨"140 m4a audio only"⟩], 0, [], ""⟩

def exOracleStale : Oracle := ⟨exFormats, 0, [⟨"earlier.mp4", 7⟩], "1080"⟩

def exOracleMovie : Oracle :=
  ⟨[⟨"401 mp4 3840x2160"⟩, ⟨"140 m4a audio only"⟩], 0, [⟨"Movie.mp4", 5⟩], "2160"⟩

def exOracleD : Oracle :=
  ⟨[⟨"398 mp4 1280x720"⟩, ⟨"400 mp4 2560x1440"⟩, ⟨"140 m4a audio only"⟩], 0, [], ""⟩

def exMsgR1 : Msg := ⟨some "Telugu", some "T", some "Anushka", some "1080", some "u1", some "song", some 1⟩

def exMsgR3 : Msg := ⟨some "Telugu", some "T", some "Anushka", some "1080", some "u1", some "song", some 3⟩

def exMsgR4 : Msg := ⟨some "Telugu", some "T", some "Anushka", some "1080", some "u1", some "song", some 4⟩

def exMsg1080 : Msg := ⟨some "Telugu", some "T", some "A", some "1080", some "u", some "song", none⟩

def exMsgNoURL : Msg := ⟨some "Telugu", some "T", some "A", some "1080", none, some "song", none⟩

def exMsgEmptyAct : Msg := ⟨some "x", none, some "", some "720", some "u", none, none⟩

def exMsgMovieEnglish : Msg := ⟨some "English", some "M", some "movie", some "2160", some "u2", some "movie", none⟩

def exMsgSong : Msg := ⟨some "Telugu", none, some "Anushka", some "1080", some "u1", some "song", none⟩

-- Helper lemma for the batch counter invariant.
theorem processBatch_sum (cfg : Config) (items : List (Option (Msg × Oracle))) (c : Counters) :
    (processBatch cfg items c).count + (processBatch cfg items c).retry_count +
      (processBatch cfg items c).failed_count =
    c.count + c.retry_count + c.failed_count + (items.filterMap id).length := by
  induction items generalizing c with
  | nil => simp [processBatch]
  | cons hd rest ih =>
    cases hd with
    | none => simpa [processBatch] using ih c
    | some mo =>
      obtain ⟨m, o⟩ := mo
      have h := ih (bump c (processMsg cfg m o).outcome)
      cases ho : (processMsg cfg m o).outcome <;>
        simp only [processBatch, bump, ho, List.filterMap_cons, id_eq,
          List.length_cons] at h ⊢ <;> omega

/-- Claim C7: every non-empty message of a batch ends in exactly one of the
three terminal outcomes, so the success count plus the requeue count plus the
failed count equals the number of non-empty messages processed. -/
theorem c7_batch_partition (cfg : Config) (items : List (Option (Msg × Oracle))) :
    (processBatch cfg items ⟨0, 0, 0⟩).count +
      (processBatch cfg items ⟨0, 0, 0⟩).retry_count +
      (processBatch cfg items ⟨0, 0, 0⟩).failed_count = (items.filterMap id).length := by
  simpa using processBatch_sum cfg items ⟨0, 0, 0⟩

/-- Claim C1 is false as stated: a job arriving with retryCount 4 whose
download fails is dead-lettered (appended to the failed-message store, with
nothing republished), not requeued, because the code increments RETRY before
comparing it against 5. -/
theorem c1_counterexample :
    retryOf exMsgR4 = 4 ∧
    (processMsg exCfg exMsgR4 exOracleFail).outcome = Outcome.failed ∧
    (processMsg exCfg exMsgR4 exOracleFail).published = none ∧
    (processMsg exCfg exMsgR4 exOracleFail).deadLetter = some exMsgR4 := by decide

/-- Claim C1 (amended): for a job whose download fails, the manager requeues
it (incrementing retryCount by 1 and republishing) exactly when the
pre-increment retryCount is less than 4, and appends the original message to
the dead-letter store exactly when the pre-increment retryCount is 4 or
more. -/
theorem c1_retry_bound_amended (cfg : Config) (m : Msg) (o : Oracle)
    (hv : validMsg m = true)
    (hfv : fvcodeOf (jqr m.RES) o.formats ≠ "")
    (hfa : facodeOf o.formats ≠ "")
    (hd : o.dlExit ≠ 0) :
    ((processMsg cfg m o).outcome = Outcome.requeued ↔ retryOf m < 4) ∧
    ((processMsg cfg m o).outcome = Outcome.failed ↔ 4 ≤ retryOf m) ∧
    (retryOf m < 4 → (processMsg cfg m o).published = some (TOPIC, requeueMsg m)) ∧
    (4 ≤ retryOf m → (processMsg cfg m o).deadLetter = some m) := by
  have hcond : ¬(fvcodeOf (jqr m.RES) o.formats = "" ∨ facodeOf o.formats = "") := by
    rintro (h | h)
    exacts [hfv h, hfa h]
  unfold processMsg
  rw [if_neg (by simp [hv]), if_neg hcond, if_pos hd]
  by_cases hr : retryOf m + 1 < 5
  · rw [if_pos hr]
    have hr4 : retryOf m < 4 := by omega
    exact ⟨⟨fun _ => hr4, fun _ => rfl⟩,
      ⟨fun h => Outcome.noConfusion h, fun h => absurd h (by omega)⟩,
      fun _ => rfl, fun h => absurd h (by omega)⟩
  · rw [if_neg hr]
    have hr4 : 4 ≤ retryOf m := by omega
    exact ⟨⟨fun h => Outcome.noConfusion h, fun h => absurd h (by omega)⟩,
      ⟨fun _ => hr4, fun _ => rfl⟩,
      fun h => absurd h (by omega), fun _ => rfl⟩

/-- Witness for the amended claim C1 at a concrete job with retryCount 3. -/
theorem c1_retry_bound_amended_witness :
    ((processMsg exCfg exMsgR3 exOracleFail).outcome = Outcome.requeued ↔ retryOf exMsgR3 < 4) ∧
    ((processMsg exCfg exMsgR3 exOracleFail).outcome = Outcome.failed ↔ 4 ≤ retryOf exMsgR3) ∧
    (retryOf exMsgR3 < 4 →
      (processMsg exCfg exMsgR3 exOracleFail).published = some (TOPIC, requeueMsg exMsgR3)) ∧
    (4 ≤ retryOf exMsgR3 → (processMsg exCfg exMsgR3 exOracleFail).deadLetter = some exMsgR3) :=
  c1_retry_bound_amended exCfg exMsgR3 exOracleFail (by decide) (by decide) (by decide) (by decide)

/-- Claim C3 is false as stated: a message with MP4URL absent extracts the
literal text null for that field, passes validation, and is then processed;
with an empty format listing it ends failed with nothing republished, so its
retryCount never becomes 1. -/
theorem c3_counterexample :
    validMsg exMsgNoURL = true ∧
    jqr exMsgNoURL.MP4URL = "null" ∧
    (processMsg exCfg exMsgNoURL exOracleEmptyFormats).outcome = Outcome.failed ∧
    (processMsg exCfg exMsgNoURL exOracleEmptyFormats).published = none := by decide

/-- Claim C3 (amended): a message in which a required field extracts as the
empty string is rejected: it ends failed, nothing is republished and nothing
is written to the dead-letter store, so no download and no retry happen. -/
theorem c3_validator_amended (cfg : Config) (m : Msg) (o : Oracle)
    (h : validMsg m = false) :
    (processMsg cfg m o).outcome = Outcome.failed ∧
    (processMsg cfg m o).published = none ∧
    (processMsg cfg m o).deadLetter = none := by
  unfold processMsg
  rw [if_pos h]
  exact ⟨rfl, rfl, rfl⟩

/-- Witness for the amended claim C3 at a message with an empty ACT field. -/
theorem c3_validator_amended_witness :
    (processMsg exCfg exMsgEmptyAct exOracleEmptyFormats).outcome = Outcome.failed ∧
    (processMsg exCfg exMsgEmptyAct exOracleEmptyFormats).published = none ∧
    (processMsg exCfg exMsgEmptyAct exOracleEmptyFormats).deadLetter = none :=
  c3_validator_amended exCfg exMsgEmptyAct exOracleEmptyFormats (by decide)

/-- Claim C4: the code overwrites LNG with bollywood before comparing it to
english, so a movie job whose original language is English is placed under
the bollywood directory, contradicting the documented hollywood routing; the
actor and resolution bucket are indeed absent from the movie path. -/
theorem c4_movie_path_bug :
    targetDir exCfg exMsgMovieEnglish "4k" = "/movies/bollywood" ∧
    (processMsg exCfg exMsgMovieEnglish exOracleMovie).dest =
      some "/movies/bollywood/Movie.mp4" ∧
    targetDir exCfg exMsgMovieEnglish "4k" ≠ "/movies/hollywood" := by decide

/-- Claim C5 is false as stated: hindi is not mapped to Hindi, bengali is not
mapped to Hindi, and english is not re-cased; all pass through exactly as
received. -/
theorem c5_counterexample :
    normalizeLng "hindi" = "hindi" ∧ normalizeLng "hindi" ≠ "Hindi" ∧
    normalizeLng "Bengali" = "Bengali" ∧ normalizeLng "Bengali" ≠ "Hindi" ∧
    normalizeLng "ENGLISH" = "ENGLISH" ∧ normalizeLng "ENGLISH" ≠ "English" := by decide

/-- Claim C5 (amended): language normalization is case-insensitive for the
south-language set only: any casing of telugu, kannada, tamil, malayalam (or
the misspelling malyalam) maps to South, and every other input, including
hindi, bengali and english, passes through unchanged with its original
casing. -/
theorem c5_language_amended (s : String) :
    (asciiLower s ∈ southLngs → normalizeLng s = "South") ∧
    (asciiLower s ∉ southLngs → normalizeLng s = s) := by
  constructor <;> intro h <;> simp [normalizeLng, h]

/-- Witness for the amended claim C5 at TELUGU and Hindi. -/
theorem c5_language_amended_witness :
    normalizeLng "TELUGU" = "South" ∧ normalizeLng "Hindi" = "Hindi" :=
  ⟨(c5_language_amended "TELUGU").1 (by decide),
   (c5_language_amended "Hindi").2 (by decide)⟩

/-- Claim C6 is false as stated: a probed height of 1072 is not bucketed by
thresholds (which would give 1080p); the exact-key lookup misses, and the
requested resolution 2160 is bucketed instead, giving 4k. -/
theorem c6_counterexample :
    vres "1072" "2160" = "4k" ∧ specHeightBucket 1072 = "1080p" ∧
    ("4k" : String) ≠ "1080p" := by decide

/-- Claim C6 (amended): the probed height is bucketed by exact-key lookup on
720, 1080, 1440, 2160 (agreeing with the threshold buckets at exactly those
heights); any other probed height, including a failed probe, falls back to
threshold bucketing of the originally requested resolution. -/
theorem c6_bucket_amended (hs rs : String) :
    (hs = "720" → vres hs rs = specHeightBucket 720) ∧
    (hs = "1080" → vres hs rs = specHeightBucket 1080) ∧
    (hs = "1440" → vres hs rs = specHeightBucket 1440) ∧
    (hs = "2160" → vres hs rs = specHeightBucket 2160) ∧
    (hs ≠ "720" → hs ≠ "1080" → hs ≠ "1440" → hs ≠ "2160" →
      vres hs rs = resFallback rs) := by
  refine ⟨?_, ?_, ?_, ?_, ?_⟩
  · rintro rfl; rfl
  · rintro rfl; rfl
  · rintro rfl; rfl
  · rintro rfl; rfl
  · intro h1 h2 h3 h4
    simp [vres, fvstoreMap, h1, h2, h3, h4]

/-- Witness for the amended claim C6 at an exact height and at height 1072. -/
theorem c6_bucket_amended_witness :
    vres "720" "2160" = specHeightBucket 720 ∧
    vres "1072" "1080" = resFallback "1080" :=
  ⟨(c6_bucket_amended "720" "2160").1 rfl,
   (c6_bucket_amended "1072" "1080").2.2.2.2 (by decide) (by decide) (by decide) (by decide)⟩

/-- Claim C2 is false as stated: with candidates of heights 720 and 1440 and
requested resolution 1080, the grep-based resolver finds no listing line
containing the text 1080 and yields an empty video id, failing the job,
whereas the specified nearest-higher rule would select height 1440. -/
theorem c2_counterexample :
    fvcodeOf "1080" [⟨"398 mp4 1280x720"⟩, ⟨"400 mp4 2560x1440"⟩] = "" ∧
    specVideoHeight 1080 [720, 1440] = some 1440 ∧
    (processMsg exCfg exMsg1080 exOracleD).outcome = Outcome.failed ∧
    (processMsg exCfg exMsg1080 exOracleD).published = none := by decide

/-- Claim C2 (amended): the resolver selects the first field of the last
format-listing line that contains the literal requested-resolution string;
when no line contains it, the video id is empty and the job is routed to the
failure path (message appended to the failed store, nothing republished),
with no fallback to a higher or maximum height. -/
theorem c2_resolver_amended (cfg : Config) (m : Msg) (o : Oracle)
    (hv : validMsg m = true)
    (h : ∀ l ∈ o.formats, containsStr (jqr m.RES) l.text = false) :
    fvcodeOf (jqr m.RES) o.formats = "" ∧
    (processMsg cfg m o).outcome = Outcome.failed ∧
    (processMsg cfg m o).published = none ∧
    (processMsg cfg m o).deadLetter = some m := by
  have hfil : o.formats.filter (fun l => containsStr (jqr m.RES) l.text) = [] := by
    rw [List.filter_eq_nil_iff]
    intro a ha
    simp [h a ha]
  have hfv : fvcodeOf (jqr m.RES) o.formats = "" := by
    unfold fvcodeOf grepLastId
    rw [hfil]
    rfl
  refine ⟨hfv, ?_, ?_, ?_⟩ <;>
  · unfold processMsg
    rw [if_neg (by simp [hv]), if_pos (Or.inl hfv)]

/-- Witness for the amended claim C2 at a listing with no matching line. -/
theorem c2_resolver_amended_witness :
    fvcodeOf (jqr exMsg1080.RES) exOracleNoMatch.formats = "" ∧
    (processMsg exCfg exMsg1080 exOracleNoMatch).outcome = Outcome.failed ∧
    (processMsg exCfg exMsg1080 exOracleNoMatch).published = none ∧
    (processMsg exCfg exMsg1080 exOracleNoMatch).deadLetter = some exMsg1080 :=
  c2_resolver_amended exCfg exMsg1080 exOracleNoMatch (by decide) (by decide)

/-- Claim C8: whenever the per-message step republishes a message, it goes to
the same topic the batch was consumed from, every field except RETRY is
exactly the received field, and RETRY is the received retry count plus one. -/
theorem c8_requeue_frame (cfg : Config) (m : Msg) (o : Oracle) (p : String × Msg)
    (h : (processMsg cfg m o).published = some p) :
    p.1 = TOPIC ∧ p.2.LNG = m.LNG ∧ p.2.TITLE = m.TITLE ∧ p.2.ACT = m.ACT ∧
    p.2.RES = m.RES ∧ p.2.MP4URL = m.MP4URL ∧ p.2.TYPE = m.TYPE ∧
    p.2.RETRY = some (retryOf m + 1) := by
  unfold processMsg at h
  split at h
  · simp at h
  · split at h
    · simp at h
    · split at h
      · split at h
        · simp only [Option.some.injEq] at h
          subst h
          exact ⟨rfl, rfl, rfl, rfl, rfl, rfl, rfl, rfl⟩
        · simp at h
      · simp at h

/-- Witness for claim C8 at a concrete failed job with retryCount 1. -/
theorem c8_requeue_frame_witness :
    (TOPIC, requeueMsg exMsgR1).1 = TOPIC ∧
    (TOPIC, requeueMsg exMsgR1).2.LNG = exMsgR1.LNG ∧
    (TOPIC, requeueMsg exMsgR1).2.TITLE = exMsgR1.TITLE ∧
    (TOPIC, requeueMsg exMsgR1).2.ACT = exMsgR1.ACT ∧
    (TOPIC, requeueMsg exMsgR1).2.RES = exMsgR1.RES ∧
    (TOPIC, requeueMsg exMsgR1).2.MP4URL = exMsgR1.MP4URL ∧
    (TOPIC, requeueMsg exMsgR1).2.TYPE = exMsgR1.TYPE ∧
    (TOPIC, requeueMsg exMsgR1).2.RETRY = some (retryOf exMsgR1 + 1) :=
  c8_requeue_frame exCfg exMsgR1 exOracleFail (TOPIC, requeueMsg exMsgR1) (by decide)

/-- Claim C9 is false as stated: the end-of-batch cleanup removes every path
below the timestamp-keyed working directory, so a partial artifact does not
survive for a later invocation, and two invocations with different
timestamps use different working directories, so no resume can occur. -/
theorem c9_counterexample :
    "/tmp/songs/t1/a.part" ∈ ["/tmp/songs/t1/a.part"] ∧
    "/tmp/songs/t1/a.part" ∉ cleanup "t1" ["/tmp/songs/t1/a.part"] ∧
    tmpdir "t1" ≠ tmpdir "t2" := by decide

/-- Claim C9 (amended): a partial artifact left by a failed attempt stays in
the working directory only within the same invocation; the rm -rf at the end
of the batch removes every path below the working directory, and a later
invocation (where any retry runs) uses a differently-timestamped working
directory, so the retry cannot resume from the partial artifact. -/
theorem c9_workdir_amended (ts ts2 : String) (fs : List String) (p : String)
    (hp : isUnder (tmpdir ts) p = true) (hne : ts ≠ ts2) :
    p ∉ cleanup ts fs ∧ tmpdir ts ≠ tmpdir ts2 := by
  constructor
  · intro hmem
    have h2 := (List.mem_filter.mp hmem).2
    rw [hp] at h2
    simp at h2
  · intro he
    apply hne
    have hd := congrArg String.data he
    simp only [tmpdir, String.data_append] at hd
    exact String.ext (List.append_cancel_left hd)

/-- Witness for the amended claim C9 at a concrete partial artifact. -/
theorem c9_workdir_amended_witness :
    "/tmp/songs/t1/a.part" ∉ cleanup "t1" ["/tmp/songs/t1/a.part", "/keep/b.mp4"] ∧
    tmpdir "t1" ≠ tmpdir "t2" :=
  c9_workdir_amended "t1" "t2" ["/tmp/songs/t1/a.part", "/keep/b.mp4"]
    "/tmp/songs/t1/a.part" (by decide) (by decide)

-- Helper lemmas for the newest-file selection.
theorem foldl_newer_spec (l : List FileEnt) (a : FileEnt) :
    (l.foldl newer a = a ∨ l.foldl newer a ∈ l) ∧
    a.mtime ≤ (l.foldl newer a).mtime ∧
    ∀ g ∈ l, g.mtime ≤ (l.foldl newer a).mtime := by
  induction l generalizing a with
  | nil => exact ⟨Or.inl rfl, le_refl _, by simp⟩
  | cons b t ih =>
    simp only [List.foldl_cons]
    obtain ⟨ihm, iha, ihall⟩ := ih (newer a b)
    have hma : a.mtime ≤ (newer a b).mtime := by unfold newer; split <;> omega
    have hmb : b.mtime ≤ (newer a b).mtime := by unfold newer; split <;> omega
    refine ⟨?_, le_trans hma iha, ?_⟩
    · rcases ihm with he | hm
      · rw [he]
        unfold newer
        split
        · exact Or.inr (List.mem_cons_self b t)
        · exact Or.inl rfl
      · exact Or.inr (List.mem_cons_of_mem b hm)
    · intro g hg
      rcases List.mem_cons.mp hg with he | hgt
      · rw [he]; exact le_trans hmb iha
      · exact ihall g hgt

theorem pickNewest_spec (l : List FileEnt) (f : FileEnt) (h : pickNewest l = some f) :
    f ∈ l ∧ ∀ g ∈ l, g.mtime ≤ f.mtime := by
  cases l with
  | nil => simp [pickNewest] at h
  | cons a t =>
    unfold pickNewest at h
    have he : t.foldl newer a = f := Option.some.inj h
    obtain ⟨hm, ha, hall⟩ := foldl_newer_spec t a
    rw [he] at hm ha hall
    constructor
    · rcases hm with he2 | hm2
      · rw [he2]; exact List.mem_cons_self a t
      · exact List.mem_cons_of_mem a hm2
    · intro g hg
      rcases List.mem_cons.mp hg with hg2 | hgt
      · rw [hg2]; exact ha
      · exact hall g hgt

/-- Claim C10: after a zero-exit download, the file that is moved to the
destination is whichever entry of the shared working-directory listing has
the greatest modification time; the selection never consults the job, so if
the downloader created no new file, a file left by an earlier job is the one
relocated to the current job destination. -/
theorem c10_newest_file (cfg : Config) (m : Msg) (o : Oracle) (f : FileEnt)
    (hv : validMsg m = true)
    (hfv : fvcodeOf (jqr m.RES) o.formats ≠ "")
    (hfa : facodeOf o.formats ≠ "")
    (hd : o.dlExit = 0)
    (hp : pickNewest o.files = some f) :
    (processMsg cfg m o).movedSrc = some (tmpdir cfg.ts ++ "/" ++ f.name) ∧
    (processMsg cfg m o).dest =
      some (targetDir cfg m (vres o.probedHeight (jqr m.RES)) ++ "/" ++ f.name) ∧
    f ∈ o.files ∧
    ∀ g ∈ o.files, g.mtime ≤ f.mtime := by
  have hcond : ¬(fvcodeOf (jqr m.RES) o.formats = "" ∨ facodeOf o.formats = "") := by
    rintro (h | h)
    exacts [hfv h, hfa h]
  have hnm : pickedName o.files = f.name := by
    unfold pickedName
    rw [hp]
    rfl
  obtain ⟨hmem, hall⟩ := pickNewest_spec o.files f hp
  unfold processMsg
  rw [if_neg (by simp [hv]), if_neg hcond, if_neg (by omega)]
  exact ⟨by rw [hnm], by rw [hnm], hmem, hall⟩

/-- Witness for claim C10: the working directory holds only a file left by an
earlier job, the current job downloads with exit 0 creating nothing new, and
that stale file is the one moved to the current job destination. -/
theorem c10_newest_file_witness :
    (processMsg exCfg exMsgSong exOracleStale).movedSrc =
      some (tmpdir exCfg.ts ++ "/" ++ FileEnt.name ⟨"earlier.mp4", 7⟩) ∧
    (processMsg exCfg exMsgSong exOracleStale).dest =
      some (targetDir exCfg exMsgSong
        (vres exOracleStale.probedHeight (jqr exMsgSong.RES)) ++ "/" ++
        FileEnt.name ⟨"earlier.mp4", 7⟩) ∧
    (⟨"earlier.mp4", 7⟩ : FileEnt) ∈ exOracleStale.files := by
  have h := c10_newest_file exCfg exMsgSong exOracleStale ⟨"earlier.mp4", 7⟩
    (by decide) (by decide) (by decide) rfl rfl
  exact ⟨h.1, h.2.1, h.2.2.1⟩

end DownloadMqtt
